import Mathlib

/-!
Verification development for the office-toolbox utility module.

The definitions below are shallow embeddings of the functions in
`src/util.ts` (manifest parsing/validation, the sideloading-directory
and registry backed manifest stores, and the template generator).
Filesystem and registry effects are modelled by explicit environment
records; promise settlement is modelled by an explicit outcome type.
-/

namespace OfficeToolbox

/-! ## Manifest XML model

`xml2js` hands `parseManifest`'s callback a JavaScript value.  We model
only the structure the source inspects: whether the result is a non-null
object, whether it has an `OfficeApp` member, whether `OfficeApp` has a
`$` attribute object containing an `xsi:type` key, and whether its `Id`
and `Version` members are arrays of strings. -/

/-- A member of the `OfficeApp` object, as the source discriminates it:
absent, present but not an array (`instanceof Array` fails), or an
array of strings. -/
inductive XmlField where
  | absent : XmlField
  | scalar (s : String) : XmlField
  | arr (xs : List String) : XmlField
deriving DecidableEq, Repr

/-- The `OfficeApp` element as the source inspects it.  `attrs = none`
models a missing `$` key; `attrs = some none` models `$` present but
with no `xsi:type` key; `attrs = some (some t)` models both present
with attribute value `t`.  (The source's `typeof(x === 'object')`
sub-conditions are `typeof` applied to a boolean, hence always truthy,
so only the two `in` tests restrict the input.) -/
structure OfficeAppNode where
  attrs : Option (Option String)
  idField : XmlField
  versionField : XmlField
deriving DecidableEq, Repr

/-- The callback argument `manifestXml`: `null` / non-object, an object
without an `OfficeApp` member, or an object with one. -/
inductive ManifestXml where
  | nullOrNonObject : ManifestXml
  | objectWithoutOfficeApp : ManifestXml
  | withOfficeApp (oa : OfficeAppNode) : ManifestXml
deriving DecidableEq, Repr

/-- The rejection reasons of `parseManifest`, in the source's wording.
The spec's taxonomy names them `MalformedXml`, `SchemaError` (missing
root / type attribute / id / version), `InvalidId`,
`UnsupportedApplication` and `UnsupportedKind` respectively. -/
inductive ParseError where
  | failedToParse : ParseError
  | officeAppMissing : ParseError
  | xsiTypeMissing : ParseError
  | idMissing : ParseError
  | versionMissing : ParseError
  | invalidId (id : String) : ParseError
  | outlookNotSupported : ParseError
  | typeNotSupported : ParseError
deriving DecidableEq, Repr

/-! ## The GUID test

Source (`isGuid`):
`/^[0-9A-F]{8}[-]?([0-9A-F]{4}[-]?){3}[0-9A-F]{12}?/i` applied with
`RegExp.test`.  The regex is anchored at the start of the string only;
there is no `$` anchor, so `test` succeeds whenever some PREFIX of the
string matches.  The lazy `{12}?` still demands exactly twelve hex
digits.  The optional hyphens never need backtracking (a hyphen can
only be consumed by `[-]?`), so the matcher below is equivalent. -/

/-- `[0-9A-F]` under the `/i` flag. -/
def isHexDigitCI (c : Char) : Bool :=
  c.isDigit || (('A' ≤ c && c ≤ 'F') || ('a' ≤ c && c ≤ 'f'))

/-- Consume exactly `n` hex digits, returning the rest. -/
def takeHex : Nat → List Char → Option (List Char)
  | 0, cs => some cs
  | _ + 1, [] => none
  | n + 1, c :: cs => if isHexDigitCI c then takeHex n cs else none

/-- Consume an optional hyphen (`[-]?`). -/
def skipHyphen : List Char → List Char
  | '-' :: cs => cs
  | cs => cs

/-- Does some prefix of `cs` match
`[0-9A-F]{8}[-]?([0-9A-F]{4}[-]?){3}[0-9A-F]{12}` (case-insensitive)? -/
def guidTestFrom (cs : List Char) : Option (List Char) := do
  let cs ← takeHex 8 cs
  let cs := skipHyphen cs
  let cs ← takeHex 4 cs
  let cs := skipHyphen cs
  let cs ← takeHex 4 cs
  let cs := skipHyphen cs
  let cs ← takeHex 4 cs
  let cs := skipHyphen cs
  takeHex 12 cs

/-- `isGuid` from the source: the anchored-at-start, unanchored-at-end
regex test. -/
def isGuid (text : String) : Bool :=
  (guidTestFrom text.data).isSome

/-- The GUID pattern as the spec words it: the WHOLE string is
8-4-4-4-12 hex digits, case-insensitive, with optional hyphens.
This is the spec-side reading used to compare against `isGuid`. -/
def isGuidWholeString (text : String) : Bool :=
  match guidTestFrom text.data with
  | some rest => rest.isEmpty
  | none => false

/-! ## parseManifest

Embedding of the callback body of `parseManifest` (src/util.ts).  The
source's first branch (`Failed to parse`) lacks a `return`, but the
chain is `if`/`else if` and a promise keeps its first settlement, so
the rejection value is still that of the first failing branch.
JavaScript's `array[0]` on an empty array yields `undefined`, which
`String(...)` coerces to `"undefined"`; `headD "undefined"` mirrors
that. -/
def parseManifestXml (m : ManifestXml) : Except ParseError (String × String × String) :=
  match m with
  | .nullOrNonObject => .error .failedToParse
  | .objectWithoutOfficeApp => .error .officeAppMissing
  | .withOfficeApp oa =>
    match oa.attrs with
    | none => .error .xsiTypeMissing
    | some none => .error .xsiTypeMissing
    | some (some ty) =>
      match oa.idField with
      | .absent => .error .idMissing
      | .scalar _ => .error .idMissing
      | .arr ids =>
        match oa.versionField with
        | .absent => .error .versionMissing
        | .scalar _ => .error .versionMissing
        | .arr vers =>
          let id := ids.headD "undefined"
          if !isGuid id then
            .error (.invalidId id)
          else if ty == "MailApp" then
            .error .outlookNotSupported
          else if ty != "ContentApp" && ty != "TaskPaneApp" then
            .error .typeNotSupported
          else
            .ok (ty, id, vers.headD "undefined")

/-! ### Spec-side first-failure checker

The spec (§4.1) states eight checks applied in order, first failure
wins.  Below each check is an independent total predicate on the
document, and `specFirstFailure` walks the list of checks in the
spec's order.  The refinement theorem for C1 compares it with
`parseManifestXml` above. -/

/-- Check 1: the root is present and an object. -/
def rootIsObject : ManifestXml → Bool
  | .nullOrNonObject => false
  | _ => true

/-- Check 2: the root contains an `OfficeApp` element. -/
def hasOfficeApp : ManifestXml → Bool
  | .withOfficeApp _ => true
  | _ => false

/-- Projection to the `OfficeApp` node (default for non-conforming
documents, used only after checks 1-2 pass). -/
def getOfficeApp : ManifestXml → OfficeAppNode
  | .withOfficeApp oa => oa
  | _ => ⟨none, .absent, .absent⟩

/-- Check 3: the attribute set and its `xsi:type` key are present. -/
def hasXsiType (m : ManifestXml) : Bool :=
  match (getOfficeApp m).attrs with
  | some (some _) => true
  | _ => false

/-- Check 4: the `Id` member is present and an array. -/
def hasIdArray (m : ManifestXml) : Bool :=
  match (getOfficeApp m).idField with
  | .arr _ => true
  | _ => false

/-- Check 5: the `Version` member is present and an array. -/
def hasVersionArray (m : ManifestXml) : Bool :=
  match (getOfficeApp m).versionField with
  | .arr _ => true
  | _ => false

/-- The extracted id (first element of the `Id` array). -/
def extractedId (m : ManifestXml) : String :=
  match (getOfficeApp m).idField with
  | .arr ids => ids.headD "undefined"
  | _ => "undefined"

/-- The extracted type discriminator. -/
def extractedType (m : ManifestXml) : String :=
  match (getOfficeApp m).attrs with
  | some (some t) => t
  | _ => "undefined"

/-- The extracted version (first element of the `Version` array). -/
def extractedVersion (m : ManifestXml) : String :=
  match (getOfficeApp m).versionField with
  | .arr vers => vers.headD "undefined"
  | _ => "undefined"

/-- The spec's ordered checklist: root object, `OfficeApp`, `xsi:type`,
`Id`, `Version`, GUID shape of the id, not the mail kind, one of the
two supported kinds; the first failing check's error is returned. -/
def specFirstFailure (m : ManifestXml) : Except ParseError (String × String × String) :=
  if !rootIsObject m then .error .failedToParse
  else if !hasOfficeApp m then .error .officeAppMissing
  else if !hasXsiType m then .error .xsiTypeMissing
  else if !hasIdArray m then .error .idMissing
  else if !hasVersionArray m then .error .versionMissing
  else if !isGuid (extractedId m) then .error (.invalidId (extractedId m))
  else if extractedType m == "MailApp" then .error .outlookNotSupported
  else if extractedType m != "ContentApp" && extractedType m != "TaskPaneApp" then
    .error .typeNotSupported
  else .ok (extractedType m, extractedId m, extractedVersion m)

/-! ## Template generation (`generateTemplateFile`)

The destination-name loop of `generateTemplateFile` (src/util.ts):

  let templatePath = path.join(process.cwd(), defaultTemplateName);
  let i = 0;
  while (fs.existsSync(templatePath)) {
    const [templateName, templateExtension] = defaultTemplateName.split('.');
    templatePath = path.join(process.cwd(), templateName + i + '.' + templateExtension);
    i++;
  }

We model `fs.existsSync` relative to the working directory as a boolean
predicate on file names and the loop as fuel-bounded recursion (`none`
when the fuel runs out; any terminating run of the source loop is a run
with sufficient fuel). -/

/-- JavaScript `String.prototype.split('.')` on a character list. -/
def splitOnDotChars : List Char → List (List Char)
  | [] => [[]]
  | '.' :: rest => [] :: splitOnDotChars rest
  | c :: rest =>
    match splitOnDotChars rest with
    | head :: tail => (c :: head) :: tail
    | [] => [[c]]

/-- `const [templateName, templateExtension] = defaultTemplateName.split('.')`:
the first two pieces of the split.  A missing second piece is JavaScript
`undefined`, string-coerced to `"undefined"` by the `+` concatenation. -/
def splitBaseExt (name : String) : String × String :=
  match splitOnDotChars name.data with
  | base :: ext :: _ => (String.mk base, String.mk ext)
  | [base] => (String.mk base, "undefined")
  | [] => ("", "undefined")

/-- The sequence of candidate file names the loop tries:
`Name.ext`, then `Name0.ext`, `Name1.ext`, ... -/
def candidateName (base ext : String) : Nat → String
  | 0 => base ++ "." ++ ext
  | k + 1 => base ++ toString k ++ "." ++ ext

/-- The `while (fs.existsSync(templatePath))` loop: try candidate `k`,
advance while the name exists.  `fileExists` is the `existsSync` oracle
on names in the current working directory. -/
def findTemplatePathAux (fileExists : String → Bool) (base ext : String) :
    Nat → Nat → Option String
  | 0, _ => none
  | fuel + 1, k =>
    if fileExists (candidateName base ext k) then
      findTemplatePathAux fileExists base ext fuel (k + 1)
    else some (candidateName base ext k)

/-- The destination-name computation of `generateTemplateFile`. -/
def findTemplatePath (fileExists : String → Bool) (defaultTemplateName : String)
    (fuel : Nat) : Option String :=
  findTemplatePathAux fileExists (splitBaseExt defaultTemplateName).1
    (splitBaseExt defaultTemplateName).2 fuel 0

/-! ## Placeholder substitution (`generateTemplateFile`, replacement step)

  webExtensionXml = webExtensionXml.replace(/00000000-0000-0000-0000-000000000000/g, id);
  webExtensionXml = webExtensionXml.replace(/1.0.0.0/g, version);

The first regex is a 36-character literal.  In the second the dots are
unescaped, i.e. wildcards: it matches any 7-character run
`1`,any,`0`,any,`0`,any,`0`, where "any" is a JavaScript `.` without
the `s` flag, i.e. any character EXCEPT a line terminator (LF, CR,
U+2028, U+2029).  JavaScript global replace scans left to right and
does not rescan replaced text; both replacements below model that with
fuel bounded by the input length (each step consumes at least one
character, and the zero-fuel arm returns the input unchanged, which a
run with sufficient fuel never reaches). -/

/-- The literal placeholder GUID, as a character list. -/
def guidPlaceholder : List Char := "00000000-0000-0000-0000-000000000000".data

/-- The literal version placeholder, as a character list. -/
def versionPlaceholder : List Char := "1.0.0.0".data

/-- Global replacement of a literal pattern, left to right,
non-overlapping, replaced text not rescanned. -/
def replaceLitAux (pat repl : List Char) : Nat → List Char → List Char
  | _, [] => []
  | 0, s => s
  | fuel + 1, c :: cs =>
    if pat.isPrefixOf (c :: cs) then
      repl ++ replaceLitAux pat repl fuel (List.drop (pat.length - 1) cs)
    else
      c :: replaceLitAux pat repl fuel cs

/-- Global replacement of a literal pattern over a string. -/
def replaceLit (pat repl s : List Char) : List Char :=
  replaceLitAux pat repl s.length s

/-- The characters a JavaScript `.` (no `s` flag) does NOT match:
the ECMAScript line terminators LF, CR, U+2028 and U+2029. -/
def isLineTerminator (c : Char) : Bool :=
  c == '\n' || c == '\r' || c == '\u2028' || c == '\u2029'

/-- Does `/1.0.0.0/` (dots are wildcards for any non-line-terminator
character) match at the head of the list?  Returns the rest after the
7 matched characters.  The pattern has no quantifiers, so matching at
a position is a fixed 7-character test with no backtracking. -/
def versionPatternHead : List Char → Option (List Char)
  | '1' :: b :: '0' :: d :: '0' :: f :: '0' :: rest =>
    if isLineTerminator b || isLineTerminator d || isLineTerminator f then none
    else some rest
  | _ => none

/-- Global replacement for `/1.0.0.0/g` (dots as wildcards). -/
def replaceVersionAux (repl : List Char) : Nat → List Char → List Char
  | _, [] => []
  | 0, s => s
  | fuel + 1, c :: cs =>
    match versionPatternHead (c :: cs) with
    | some rest => repl ++ replaceVersionAux repl fuel rest
    | none => c :: replaceVersionAux repl fuel cs

/-- Global replacement for `/1.0.0.0/g` over a string. -/
def replaceVersion (repl s : List Char) : List Char :=
  replaceVersionAux repl s.length s

/-- The replacement step of `generateTemplateFile`: first the literal
placeholder GUID is globally replaced by `id`, then the wildcard
version pattern is globally replaced by `version`. -/
def substitutePlaceholders (id version s : List Char) : List Char :=
  replaceVersion version (replaceLit guidPlaceholder id s)

/-- Is the literal pattern `pat` a substring of `s`?  (The spec-side
notion of "containing a literal occurrence".) -/
def containsLit (pat : List Char) : List Char → Bool
  | [] => decide (pat = [])
  | c :: cs => pat.isPrefixOf (c :: cs) || containsLit pat cs

/-- Does `s` contain a match of the wildcard version pattern?  (The
code-side notion of what the second replacement touches.) -/
def containsVersionPattern : List Char → Bool
  | [] => false
  | c :: cs => (versionPatternHead (c :: cs)).isSome || containsVersionPattern cs

/-! ## The directory-backed store (non-win32 branch)

`applicationProperties` (src/util.ts): six applications; `word`,
`excel` and `powerpoint` carry a `sideloadingDirectory` under the
user's home directory, the other three do not (accessing the missing
property yields `undefined`, and `fs.existsSync(undefined)` is
`false`). -/

/-- The keys of `applicationProperties`, in declaration order. -/
def applicationNames : List String :=
  ["word", "excel", "powerpoint", "outlook", "onenote", "project"]

/-- `applicationProperties[app].sideloadingDirectory`
(`path.join(os.homedir(), ...)`), `none` when the property is absent. -/
def sideloadingDirectory (home : String) : String → Option String
  | "word" => some (home ++ "/Library/Containers/com.microsoft.Word/Data/Documents/wef")
  | "excel" => some (home ++ "/Library/Containers/com.microsoft.Excel/Data/Documents/wef")
  | "powerpoint" => some (home ++ "/Library/Containers/com.microsoft.Powerpoint/Data/Documents/wef")
  | _ => none

/-- The filesystem facts the directory-backed store consults:
existence of paths, directory listings, and `realpathSync`
resolution. -/
structure DirFS where
  pathExists : String → Bool
  dirEntries : String → List String
  realpath : String → String

/-- `stat` identity as the store compares it: device and inode. -/
structure FileStat where
  dev : Nat
  ino : Nat
deriving DecidableEq, Repr

/-- Two paths name the same underlying file exactly when their device
AND inode agree (the intended identity the spec states). -/
def sameFile (a b : FileStat) : Prop := a.dev = b.dev ∧ a.ino = b.ino

instance (a b : FileStat) : Decidable (sameFile a b) := by
  unfold sameFile; infer_instance

/-- Settlement of the promise an operation returns: resolved, rejected
with a reason, or never settled. -/
inductive PromiseOutcome (α : Type) where
  | resolved (value : α) : PromiseOutcome α
  | rejected (reason : String) : PromiseOutcome α
  | unsettled : PromiseOutcome α
deriving DecidableEq, Repr

/-! ### add (`addManifestToSideloadingDirectory`)

  if (fs.existsSync(sideloadingManifestPath)) {
    const stat = fs.statSync(manifestPath);
    const sideloadingStat = fs.statSync(sideloadingManifestPath);
    if (stat.ino !== sideloadingStat.ino && stat.dev !== sideloadingStat.dev) {
      return reject(['Remove the manifest with matching name before adding this one. ', ...]);
    }
  }
  fs.ensureLinkSync(manifestPath, sideloadingManifestPath);
  resolve();

The inputs the branch consults are collapsed into a record: whether the
destination name already exists, the two stat identities, and the
destination's real path (used in the rejection message). -/

/-- Environment for one `add` call on the directory-backed store. -/
structure AddEnv where
  destExists : Bool
  srcStat : FileStat
  destStat : FileStat
  destRealPath : String

/-- Result of `addManifestToSideloadingDirectory`: `conflict` is the
rejection naming the existing real path, `linked` the
`ensureLinkSync` + `resolve()` path. -/
inductive AddOutcome where
  | conflict (existingRealPath : String) : AddOutcome
  | linked : AddOutcome
deriving DecidableEq, Repr

/-- `addManifestToSideloadingDirectory`, with the source's exact
conjunction `stat.ino !== sideloadingStat.ino && stat.dev !== sideloadingStat.dev`. -/
def addManifestToSideloadingDirectory (env : AddEnv) : AddOutcome :=
  if env.destExists then
    if env.srcStat.ino != env.destStat.ino && env.srcStat.dev != env.destStat.dev then
      .conflict env.destRealPath
    else .linked
  else .linked

/-! ### remove (`removeManifest` / `removeManifestFromSideloadingDirectory`) -/

/-- The directory entries of `app`'s sideloading directory whose
resolved real path equals the target; the inner `forEach` of the
source unlinks once per such entry.  Applications without a
`sideloadingDirectory` and directories that do not exist contribute
nothing (`continue`). -/
def matchingEntriesFor (fs : DirFS) (home : String) (target : String) (app : String) :
    List String :=
  match sideloadingDirectory home app with
  | none => []
  | some dir =>
    if fs.pathExists dir then
      (fs.dirEntries dir).filter (fun name => fs.realpath (dir ++ "/" ++ name) == target)
    else []

/-- All matching entries across the applications the call scans:
every application when `inputApplication` is `null`, otherwise the
named one (`!inputApplication || application === inputApplication`). -/
def matchingEntries (fs : DirFS) (home : String) (inputApplication : Option String)
    (target : String) : List String :=
  (applicationNames.filter (fun app =>
      match inputApplication with
      | none => true
      | some ia => app == ia)).flatMap (matchingEntriesFor fs home target)

/-- The source's rejection message when nothing matched. -/
def nothingRemovedMessage : String :=
  "No manifests were found to remove. Use \"list\" to show manifests that have been added."

/-- `removeManifestFromSideloadingDirectory`: unlinks the target once
per matching entry and sets `manifestRemoved`; afterwards the executor
rejects when nothing was removed and otherwise falls off the end
without calling `resolve` (the promise stays unsettled).  Filesystem
exceptions are not modelled (the `DirFS` oracles are total). -/
def removeManifestFromSideloadingDirectory (fs : DirFS) (home : String)
    (inputApplication : Option String) (manifestPathToRemove : String) :
    PromiseOutcome Unit :=
  let manifestRemoved := !(matchingEntries fs home inputApplication manifestPathToRemove).isEmpty
  if !manifestRemoved then .rejected nothingRemovedMessage
  else .unsettled

/-- `removeManifest` (non-win32 branch): resolve the input to its real
path when it exists, then delegate. -/
def removeManifest (fs : DirFS) (home : String) (inputApplication : Option String)
    (manifestPath : String) : PromiseOutcome Unit :=
  let manifestPath' :=
    if fs.pathExists manifestPath then fs.realpath manifestPath else manifestPath
  removeManifestFromSideloadingDirectory fs home inputApplication manifestPath'

/-! ## The registry-backed store (win32 branch)

The registry itself is reached through an out-of-process shell; the
in-repository logic is the filtering in `getManifestsFromRegistry` and
the guard in `removeManifestFromRegistry`.  The key's contents are
modelled as name/data pairs. -/

/-- `getManifestsFromRegistry`, filtering step: keep the names whose
data equals the name case-insensitively
(`registryJSON[name].toString().toLowerCase() === name.toString().toLowerCase()`). -/
def getManifestsFromRegistry (values : List (String × String)) : List String :=
  (values.filter (fun kv => kv.2.toLower == kv.1.toLower)).map Prod.fst

/-- Outcome of `removeManifestFromRegistry`: rejected for a missing
argument, or success with the value names remaining under the key. -/
inductive RegistryRemoveOutcome where
  | rejectedMissingArgument : RegistryRemoveOutcome
  | success (remaining : List String) : RegistryRemoveOutcome
deriving DecidableEq, Repr

/-- `removeManifestFromRegistry`.  The `!manifestPath` guard (null or
empty string) is from the source.  Modelled from the spec: the actual
deletion runs out of process as
`Remove-ItemProperty ... -ErrorAction SilentlyContinue`, which removes
the value when present and reports success whether or not it existed;
the registry key is modelled as the list of its value names. -/
def removeManifestFromRegistry (state : List String) (manifestPath : Option String) :
    RegistryRemoveOutcome :=
  match manifestPath with
  | none => .rejectedMissingArgument
  | some p =>
    if p = "" then .rejectedMissingArgument
    else .success (state.filter (fun n => n ≠ p))

/-! ## Theorems -/

/-- C1: `parseManifest` rejects with the error of the first failing
check in the order: root object, `OfficeApp` element, `xsi:type`
attribute, `Id` child, `Version` child, GUID shape of the id, not the
mail kind, one of the two supported kinds (proved as a refinement of
the spec's ordered checklist); in particular a document missing both
the `Id` and the `Version` element fails with the id-missing error,
not the version-missing one. -/
theorem parseManifest_first_failure_order :
    (∀ m : ManifestXml, parseManifestXml m = specFirstFailure m) ∧
    parseManifestXml
        (.withOfficeApp ⟨some (some "TaskPaneApp"), .absent, .absent⟩) =
      .error .idMissing := by
  refine ⟨?_, rfl⟩
  intro m
  rcases m with _ | _ | ⟨(_ | (_ | t)), (_ | s | ids), (_ | s' | vers)⟩ <;> rfl

/-- C2, counterexample: the id
`00000000-0000-0000-0000-000000000000x` does not match the GUID
pattern as a whole string, yet `parse` succeeds on a document carrying
it (the source regex lacks an end anchor, so any string with a
GUID-shaped prefix passes `isGuid`). -/
theorem isGuid_prefix_counterexample :
    isGuidWholeString "00000000-0000-0000-0000-000000000000x" = false ∧
    parseManifestXml
        (.withOfficeApp ⟨some (some "TaskPaneApp"),
          .arr ["00000000-0000-0000-0000-000000000000x"], .arr ["1.0"]⟩) =
      .ok ("TaskPaneApp", "00000000-0000-0000-0000-000000000000x", "1.0") ∧
    parseManifestXml
        (.withOfficeApp ⟨some (some "TaskPaneApp"),
          .arr ["00000000-0000-0000-0000-000000000000x"], .arr ["1.0"]⟩) ≠
      .error (.invalidId "00000000-0000-0000-0000-000000000000x") := by
  refine ⟨rfl, rfl, ?_⟩
  intro hcontra
  exact Except.noConfusion hcontra

/-- C2, amended: for a document whose `Id` array holds the string `s`
(type discriminator and version present), `parse` fails with
`InvalidId` exactly when no PREFIX of `s` matches the GUID pattern:
the source regex is anchored at the start but not at the end. -/
theorem parseManifest_invalidId_iff_guid_test_fails (ty s : String) (vers : List String) :
    parseManifestXml (.withOfficeApp ⟨some (some ty), .arr [s], .arr vers⟩) =
        .error (.invalidId s) ↔
      isGuid s = false := by
  unfold parseManifestXml
  cases h : isGuid s with
  | false => simp [h]
  | true =>
    rcases hm : (ty == "MailApp") with _ | _ <;>
      rcases hc : (ty != "ContentApp" && ty != "TaskPaneApp") with _ | _ <;>
        simp [h, hm, hc]

/-- C3, counterexample: a document whose `xsi:type` is `MailApp` but
whose `Id` fails the GUID test is rejected with `InvalidId`, not with
the Outlook/mail `UnsupportedApplication` error: the GUID check runs
before the mail-kind check. -/
theorem mailApp_invalid_id_counterexample :
    parseManifestXml
        (.withOfficeApp ⟨some (some "MailApp"), .arr ["not-a-guid"], .arr ["1.0"]⟩) =
      .error (.invalidId "not-a-guid") ∧
    parseManifestXml
        (.withOfficeApp ⟨some (some "MailApp"), .arr ["not-a-guid"], .arr ["1.0"]⟩) ≠
      .error .outlookNotSupported := by
  refine ⟨rfl, ?_⟩
  intro hcontra
  exact ParseError.noConfusion (Except.error.inj hcontra)

/-- C3, amended: for every document whose `xsi:type` equals `MailApp`
and whose `Id` passes the source's GUID test, `parse` fails with the
Outlook/mail `UnsupportedApplication` error, regardless of the
version's content; when the `Id` fails the GUID test, `InvalidId`
fires first. -/
theorem parseManifest_mailApp_rejected_when_id_guid (s : String) (vers : List String)
    (h : isGuid s = true) :
    parseManifestXml (.withOfficeApp ⟨some (some "MailApp"), .arr [s], .arr vers⟩) =
      .error .outlookNotSupported := by
  unfold parseManifestXml
  simp [h]

/-- Witness for the amended C3 theorem at a concrete document. -/
theorem parseManifest_mailApp_rejected_when_id_guid_witness :
    isGuid "00000000-0000-0000-0000-000000000000" = true ∧
    parseManifestXml
        (.withOfficeApp ⟨some (some "MailApp"),
          .arr ["00000000-0000-0000-0000-000000000000"], .arr ["1.0"]⟩) =
      .error .outlookNotSupported :=
  ⟨by decide,
   parseManifest_mailApp_rejected_when_id_guid
     "00000000-0000-0000-0000-000000000000" ["1.0"] (by decide)⟩

/-- C4: evaluation of `addManifestToSideloadingDirectory` at the
failing input.  A file already occupies the destination name and is a
DIFFERENT underlying file (same device, different inode), yet the
source's conjunction `stat.ino !== sideloadingStat.ino &&
stat.dev !== sideloadingStat.dev` is false, so no `Conflict` is
raised and the call proceeds to `ensureLinkSync`/`resolve`. -/
theorem addManifest_same_device_distinct_inode_not_conflict :
    addManifestToSideloadingDirectory
        ⟨true, ⟨1, 2⟩, ⟨1, 3⟩, "/Users/dev/Library/wef/manifest.xml"⟩ = .linked ∧
    ¬ sameFile (⟨1, 2⟩ : FileStat) ⟨1, 3⟩ := by
  refine ⟨rfl, ?_⟩
  decide

/-- Every terminating run of the destination-name loop yields a name
that does not yet exist, and that name is the first free candidate in
the sequence tried from index `k` on. -/
theorem findTemplatePathAux_spec (ex : String → Bool) (base ext : String) :
    ∀ (fuel k : Nat) (g : String),
      findTemplatePathAux ex base ext fuel k = some g →
      ex g = false ∧ ∃ m, k ≤ m ∧ g = candidateName base ext m ∧
        ∀ j, k ≤ j → j < m → ex (candidateName base ext j) = true := by
  intro fuel
  induction fuel with
  | zero =>
    intro k g h
    exact absurd h (by simp [findTemplatePathAux])
  | succ n ih =>
    intro k g h
    unfold findTemplatePathAux at h
    by_cases hex : ex (candidateName base ext k) = true
    · rw [if_pos hex] at h
      obtain ⟨hg, m, hkm, hgm, hall⟩ := ih (k + 1) g h
      refine ⟨hg, m, by omega, hgm, fun j hkj hjm => ?_⟩
      rcases Nat.eq_or_lt_of_le hkj with heq | hlt
      · exact heq ▸ hex
      · exact hall j hlt hjm
    · rw [if_neg hex] at h
      obtain rfl : candidateName base ext k = g := Option.some.inj h
      exact ⟨Bool.eq_false_iff.mpr hex, k, le_refl k, rfl,
        fun j hkj hjk => absurd (lt_of_le_of_lt hkj hjk) (lt_irrefl k)⟩

/-- C5: when the destination-name computation of
`generateTemplateFile` terminates, it returns the first name in the
sequence `Name.ext`, `Name0.ext`, `Name1.ext`, ... that does not
exist (so it never overwrites an existing file), and a second
generation in the same directory — where the first generated file now
also exists — returns a distinct, again non-existing name. -/
theorem findTemplatePath_fresh_and_in_order
    (ex : String → Bool) (name : String) (fuel fuel' : Nat) (g g' : String)
    (h1 : findTemplatePath ex name fuel = some g)
    (h2 : findTemplatePath (fun s => ex s || s == g) name fuel' = some g') :
    (ex g = false ∧
      ∃ m, g = candidateName (splitBaseExt name).1 (splitBaseExt name).2 m ∧
        ∀ j, j < m →
          ex (candidateName (splitBaseExt name).1 (splitBaseExt name).2 j) = true) ∧
    ex g' = false ∧ g' ≠ g := by
  obtain ⟨hg, m, _, hgm, hall⟩ :=
    findTemplatePathAux_spec ex (splitBaseExt name).1 (splitBaseExt name).2 fuel 0 g h1
  obtain ⟨hg', _, _, _, _⟩ :=
    findTemplatePathAux_spec (fun s => ex s || s == g)
      (splitBaseExt name).1 (splitBaseExt name).2 fuel' 0 g' h2
  have hor : (ex g' || g' == g) = false := hg'
  have hne : g' ≠ g := by
    intro hcontra
    rw [hcontra] at hor
    simp at hor
  refine ⟨⟨hg, m, hgm, fun j hj => hall j (Nat.zero_le j) hj⟩, ?_, hne⟩
  rcases Bool.or_eq_false_iff.mp hor with ⟨hx, _⟩
  exact hx

/-- Witness for the C5 theorem: in a directory already holding
`BookWithTaskPane.xlsx`, generation picks `BookWithTaskPane0.xlsx`;
a second generation (with that file now present) picks the distinct
`BookWithTaskPane1.xlsx`. -/
theorem findTemplatePath_fresh_and_in_order_witness :
    findTemplatePath (fun s => s == "BookWithTaskPane.xlsx")
        "BookWithTaskPane.xlsx" 5 = some "BookWithTaskPane0.xlsx" ∧
    findTemplatePath
        (fun s => (fun t => t == "BookWithTaskPane.xlsx") s ||
          s == "BookWithTaskPane0.xlsx")
        "BookWithTaskPane.xlsx" 5 = some "BookWithTaskPane1.xlsx" ∧
    (fun s => s == "BookWithTaskPane.xlsx") "BookWithTaskPane0.xlsx" = false ∧
    "BookWithTaskPane1.xlsx" ≠ "BookWithTaskPane0.xlsx" := by
  have h := findTemplatePath_fresh_and_in_order
    (fun s => s == "BookWithTaskPane.xlsx") "BookWithTaskPane.xlsx" 5 5
    "BookWithTaskPane0.xlsx" "BookWithTaskPane1.xlsx" (by decide) (by decide)
  exact ⟨by decide, by decide, h.1.1, h.2.2⟩

/-- A string with no occurrence of the literal pattern is unchanged by
the literal global replacement, at any fuel. -/
theorem replaceLitAux_no_occurrence (pat repl : List Char) :
    ∀ (fuel : Nat) (s : List Char), containsLit pat s = false →
      replaceLitAux pat repl fuel s = s := by
  intro fuel
  induction fuel with
  | zero =>
    intro s _
    cases s <;> rfl
  | succ n ih =>
    intro s hs
    cases s with
    | nil => rfl
    | cons c cs =>
      unfold containsLit at hs
      rcases Bool.or_eq_false_iff.mp hs with ⟨hp, hrest⟩
      unfold replaceLitAux
      rw [if_neg (by simp [hp])]
      rw [ih cs hrest]

/-- A string with no match of the wildcard version pattern is
unchanged by the version global replacement, at any fuel. -/
theorem replaceVersionAux_no_match (repl : List Char) :
    ∀ (fuel : Nat) (s : List Char), containsVersionPattern s = false →
      replaceVersionAux repl fuel s = s := by
  intro fuel
  induction fuel with
  | zero =>
    intro s _
    cases s <;> rfl
  | succ n ih =>
    intro s hs
    cases s with
    | nil => rfl
    | cons c cs =>
      unfold containsVersionPattern at hs
      rcases Bool.or_eq_false_iff.mp hs with ⟨hp, hrest⟩
      unfold replaceVersionAux
      cases hh : versionPatternHead (c :: cs) with
      | some rest => rw [hh] at hp; exact absurd hp (by simp)
      | none =>
        show c :: replaceVersionAux repl n cs = c :: cs
        rw [ih cs hrest]

/-- C6, counterexample, refuting two conjuncts of the claim.
First, the text `Helper 1a0b0c0 text` contains neither the literal
placeholder GUID nor the literal version string `1.0.0.0`, yet the
substitution step changes it: the dots of the source regex
`/1.0.0.0/g` are unescaped wildcards, so the run `1a0b0c0` is
replaced by the version.  Second, the output is not placeholder-free:
on `1a0b0c0.0.0.0` (again containing neither literal placeholder)
with id `REAL-ID` and version `2.1`, the wildcard match consumes
`1a0b0c0` and the replacement abuts the remainder `.0.0.0`, so the
output `2.1.0.0.0` contains a literal occurrence of the version
placeholder `1.0.0.0`. -/
theorem substitutePlaceholders_wildcard_counterexample :
    (containsLit guidPlaceholder "Helper 1a0b0c0 text".data = false ∧
     containsLit versionPlaceholder "Helper 1a0b0c0 text".data = false ∧
     substitutePlaceholders "id".data "2.0".data "Helper 1a0b0c0 text".data ≠
       "Helper 1a0b0c0 text".data) ∧
    (containsLit guidPlaceholder "1a0b0c0.0.0.0".data = false ∧
     containsLit versionPlaceholder "1a0b0c0.0.0.0".data = false ∧
     substitutePlaceholders "REAL-ID".data "2.1".data "1a0b0c0.0.0.0".data =
       "2.1.0.0.0".data ∧
     containsLit versionPlaceholder
       (substitutePlaceholders "REAL-ID".data "2.1".data "1a0b0c0.0.0.0".data) =
       true) := by
  refine ⟨⟨by decide, by decide, by decide⟩, by decide, by decide, by decide, by decide⟩

/-- C6, amended: the GUID substitution replaces every occurrence of
the literal all-zero placeholder by the real id, and the version
substitution replaces every 7-character segment matching
`1`,any,`0`,any,`0`,any,`0` — the regex's unescaped dots act as
wildcards for any character EXCEPT a line terminator — by the real
version (including, in particular, every literal `1.0.0.0`); text
containing neither the literal placeholder GUID nor any segment
matching that wildcard pattern is left unchanged, and in particular a
run whose separators are newlines, such as in `keep 1\n0\n0\n0`, is
left unchanged; the output is not guaranteed to be free of the
placeholders (see the counterexample). -/
theorem substitutePlaceholders_unchanged_without_matches :
    (∀ (id ver s : List Char), containsLit guidPlaceholder s = false →
        containsVersionPattern s = false →
        substitutePlaceholders id ver s = s) ∧
    substitutePlaceholders "REAL-ID".data "9.9".data
        "a 00000000-0000-0000-0000-000000000000 b 1.0.0.0 c".data =
      "a REAL-ID b 9.9 c".data ∧
    substitutePlaceholders "REAL-ID".data "9.9".data "keep 1\n0\n0\n0".data =
      "keep 1\n0\n0\n0".data := by
  refine ⟨?_, by decide, by decide⟩
  intro id ver s h1 h2
  unfold substitutePlaceholders replaceLit replaceVersion
  rw [replaceLitAux_no_occurrence guidPlaceholder id s.length s h1]
  exact replaceVersionAux_no_match ver s.length s h2

/-- Witness for the amended C6 theorem at a concrete clean text. -/
theorem substitutePlaceholders_unchanged_without_matches_witness :
    containsLit guidPlaceholder "plain text".data = false ∧
    containsVersionPattern "plain text".data = false ∧
    substitutePlaceholders "X".data "Y".data "plain text".data = "plain text".data :=
  ⟨by decide, by decide,
   substitutePlaceholders_unchanged_without_matches.1
     "X".data "Y".data "plain text".data (by decide) (by decide)⟩

/-- The executor of `removeManifestFromSideloadingDirectory` rejects
with the nothing-removed message exactly when no directory entry
matched, and stays unsettled exactly when at least one matched. -/
theorem removeDir_outcome_characterization (fs : DirFS) (home : String)
    (app : Option String) (t : String) :
    (removeManifestFromSideloadingDirectory fs home app t =
        .rejected nothingRemovedMessage ↔
      matchingEntries fs home app t = []) ∧
    (removeManifestFromSideloadingDirectory fs home app t = .unsettled ↔
      matchingEntries fs home app t ≠ []) := by
  unfold removeManifestFromSideloadingDirectory
  by_cases h : matchingEntries fs home app t = []
  · simp [h]
  · have h' : (matchingEntries fs home app t).isEmpty = false := by
      simpa [List.isEmpty_iff] using h
    simp [h, h']

/-- C7, counterexample: on a filesystem where the `word` sideloading
directory exists but holds no entry resolving to the target, a remove
call WITH an application given is rejected with the nothing-removed
message (the source rejects whenever zero entries matched, whether or
not an application was given). -/
theorem remove_rejects_nothingRemoved_with_application_given :
    removeManifestFromSideloadingDirectory
        ⟨fun p => p == "/u/Library/Containers/com.microsoft.Word/Data/Documents/wef",
         fun _ => ["other.xml"],
         fun p => p⟩
        "/u" (some "word") "/u/target.xml" =
      .rejected nothingRemovedMessage := by
  decide

/-- C7, amended: `remove` first resolves the input path to its real
path when it exists; it then fails with the nothing-removed rejection
exactly when zero directory entries resolved to the target —
REGARDLESS of whether an application was given — and settles no other
way (it stays unsettled when at least one entry matched). -/
theorem remove_nothingRemoved_iff_no_matches (fs : DirFS) (home : String)
    (app : Option String) (manifestPath : String) :
    (removeManifest fs home app manifestPath = .rejected nothingRemovedMessage ↔
      matchingEntries fs home app
        (if fs.pathExists manifestPath then fs.realpath manifestPath
         else manifestPath) = []) ∧
    (removeManifest fs home app manifestPath = .unsettled ↔
      matchingEntries fs home app
        (if fs.pathExists manifestPath then fs.realpath manifestPath
         else manifestPath) ≠ []) := by
  unfold removeManifest
  exact removeDir_outcome_characterization fs home app _

/-- C10: the executor of `removeManifestFromSideloadingDirectory`
never calls `resolve`: whenever at least one entry matched (the
success path) the promise stays unsettled, and the only settlement in
the model is the zero-matches rejection. -/
theorem removeFromSideloadingDirectory_never_resolves (fs : DirFS) (home : String)
    (app : Option String) (t : String) :
    (∀ u : Unit, removeManifestFromSideloadingDirectory fs home app t ≠ .resolved u) ∧
    (matchingEntries fs home app t ≠ [] →
      removeManifestFromSideloadingDirectory fs home app t = .unsettled) ∧
    (matchingEntries fs home app t = [] →
      removeManifestFromSideloadingDirectory fs home app t =
        .rejected nothingRemovedMessage) := by
  obtain ⟨hrej, huns⟩ := removeDir_outcome_characterization fs home app t
  refine ⟨?_, huns.mpr, hrej.mpr⟩
  intro u hcontra
  by_cases h : matchingEntries fs home app t = []
  · rw [hrej.mpr h] at hcontra
    exact PromiseOutcome.noConfusion hcontra
  · rw [huns.mpr h] at hcontra
    exact PromiseOutcome.noConfusion hcontra

/-- Witness for the C10 theorem: a filesystem whose `word` directory
holds an entry resolving to the target; the call removes it and the
promise stays unsettled (it never resolves). -/
theorem removeFromSideloadingDirectory_never_resolves_witness :
    matchingEntries
        ⟨fun p => p == "/u/Library/Containers/com.microsoft.Word/Data/Documents/wef",
         fun _ => ["m.xml"], fun p => p⟩
        "/u" (some "word")
        "/u/Library/Containers/com.microsoft.Word/Data/Documents/wef/m.xml" ≠ [] ∧
    removeManifestFromSideloadingDirectory
        ⟨fun p => p == "/u/Library/Containers/com.microsoft.Word/Data/Documents/wef",
         fun _ => ["m.xml"], fun p => p⟩
        "/u" (some "word")
        "/u/Library/Containers/com.microsoft.Word/Data/Documents/wef/m.xml" =
      .unsettled ∧
    removeManifestFromSideloadingDirectory
        ⟨fun p => p == "/u/Library/Containers/com.microsoft.Word/Data/Documents/wef",
         fun _ => ["m.xml"], fun p => p⟩
        "/u" (some "word")
        "/u/Library/Containers/com.microsoft.Word/Data/Documents/wef/m.xml" ≠
      .resolved () :=
  ⟨by decide,
   (removeFromSideloadingDirectory_never_resolves _ _ _ _).2.1 (by decide),
   (removeFromSideloadingDirectory_never_resolves _ _ _ _).1 ()⟩

/-- C8: the registry-backed list returns a name exactly when some
value under the developer key has that name and its data equals the
name case-insensitively; a value whose name differs from its data
under case-insensitive comparison is never returned. -/
theorem getManifestsFromRegistry_mem_iff (values : List (String × String))
    (nm : String) :
    nm ∈ getManifestsFromRegistry values ↔
      ∃ d, (nm, d) ∈ values ∧ d.toLower = nm.toLower := by
  unfold getManifestsFromRegistry
  simp only [List.mem_map, List.mem_filter]
  constructor
  · rintro ⟨⟨n, d⟩, ⟨hmem, hfilter⟩, rfl⟩
    exact ⟨d, hmem, by simpa using hfilter⟩
  · rintro ⟨d, hmem, heq⟩
    exact ⟨(nm, d), ⟨hmem, by simpa using heq⟩, rfl⟩

/-- C9: the registry-backed remove rejects with the missing-argument
message when no manifest path was supplied (null or empty), and for a
supplied path it succeeds whether or not the value exists: a first
removal leaves a state without the path, and removing the same path
again succeeds with the state unchanged. -/
theorem removeManifestFromRegistry_missing_arg_and_idempotent
    (state : List String) (p : String) (hp : p ≠ "") :
    removeManifestFromRegistry state none = .rejectedMissingArgument ∧
    removeManifestFromRegistry state (some "") = .rejectedMissingArgument ∧
    ∃ remaining,
      removeManifestFromRegistry state (some p) = .success remaining ∧
      p ∉ remaining ∧
      removeManifestFromRegistry remaining (some p) = .success remaining := by
  refine ⟨rfl, rfl, state.filter (fun n => n ≠ p), ?_, ?_, ?_⟩
  · show (if p = "" then RegistryRemoveOutcome.rejectedMissingArgument
        else RegistryRemoveOutcome.success (state.filter (fun n => n ≠ p))) =
      RegistryRemoveOutcome.success (state.filter (fun n => n ≠ p))
    rw [if_neg hp]
  · intro hcontra
    have := (List.mem_filter.mp hcontra).2
    simp at this
  · show (if p = "" then RegistryRemoveOutcome.rejectedMissingArgument
        else RegistryRemoveOutcome.success
          ((state.filter (fun n => n ≠ p)).filter (fun n => n ≠ p))) =
      RegistryRemoveOutcome.success (state.filter (fun n => n ≠ p))
    rw [if_neg hp]
    congr 1
    apply List.filter_eq_self.mpr
    intro a ha
    have := (List.mem_filter.mp ha).2
    simpa using this

/-- Witness for the C9 theorem at a concrete key state and path. -/
theorem removeManifestFromRegistry_missing_arg_and_idempotent_witness :
    ("b" : String) ≠ "" ∧
    (removeManifestFromRegistry ["a", "b"] none = .rejectedMissingArgument ∧
     removeManifestFromRegistry ["a", "b"] (some "") = .rejectedMissingArgument ∧
     ∃ remaining,
       removeManifestFromRegistry ["a", "b"] (some "b") = .success remaining ∧
       "b" ∉ remaining ∧
       removeManifestFromRegistry remaining (some "b") = .success remaining) :=
  ⟨by decide,
   removeManifestFromRegistry_missing_arg_and_idempotent ["a", "b"] "b" (by decide)⟩

end OfficeToolbox
